import Mathlib

/-!
Verification of the Alipay payment-method module of wp-calypso:
the form state store created by `createAlipayPaymentMethodStore`, the
`isFormValid` validation routine, the submit handler of `AlipayPayButton`,
and the `ButtonContents` label selection.

The store state, reducer, selector and submit flow are shallowly embedded
from the source. The asynchronous processor call is modelled by a
`ProcessorOutcome` value (resolve with an optional `redirect_url` string, or
reject with a message); a submission attempt produces the ordered list of
externally observable events it issues.
-/

namespace Alipay

/-- The customerName field held by the store: a string value and a touched
flag, embedded from the reducer default state and the CUSTOMER_NAME_SET
branch. -/
structure FormField where
  value : String
  isTouched : Bool
  deriving DecidableEq, Repr

/-- The store state. `customerName` is `none` when the state object carries
no customerName field (an uninitialized store), and `some f` otherwise; the
reducer default always supplies the field. -/
structure StoreState where
  customerName : Option FormField
  deriving DecidableEq, Repr

/-- A dispatched action: a type tag and a string payload, embedded from the
action objects handled by the reducer. -/
structure Action where
  type : String
  payload : String
  deriving DecidableEq, Repr

/-- The action creator `changeCustomerName( payload )`, which returns
the object with type CUSTOMER_NAME_SET and the given payload. -/
def changeCustomerName (payload : String) : Action :=
  { type := "CUSTOMER_NAME_SET", payload := payload }

/-- The reducer default state: customerName with empty value, not touched. -/
def initialState : StoreState :=
  { customerName := some { value := "", isTouched := false } }

/-- The reducer registered for the alipay store: on CUSTOMER_NAME_SET it
replaces customerName with the payload as value and isTouched true; every
other action falls through to `return state`. -/
def reducer (state : StoreState) (action : Action) : StoreState :=
  if action.type = "CUSTOMER_NAME_SET" then
    { state with customerName := some { value := action.payload, isTouched := true } }
  else
    state

/-- The value returned by the selector `getCustomerName`: the field object
when present, otherwise the empty string produced by the
`state.customerName || ''` fallback (a plain string, not a field object). -/
inductive CustomerNameResult where
  | field (f : FormField)
  | emptyString
  deriving DecidableEq, Repr

/-- The selector `getCustomerName( state )`, which returns
`state.customerName || ''`. -/
def getCustomerName (state : StoreState) : CustomerNameResult :=
  match state.customerName with
  | some f => CustomerNameResult.field f
  | none => CustomerNameResult.emptyString

/-- `isFormValid( store )`: reads the selector; if the value has length 0
(no trimming occurs in the source) it dispatches `changeCustomerName('')`
and returns false, otherwise it returns true. The result pairs the boolean
with the store state after the call. When the selector yields the
empty-string fallback, the JavaScript expression
`customerName?.value.length` evaluates `.length` on undefined and throws,
modelled as an `Except.error`. -/
def isFormValid (store : StoreState) : Except String (Bool × StoreState) :=
  match getCustomerName store with
  | CustomerNameResult.field customerName =>
      if customerName.value.length = 0 then
        Except.ok (false, reducer store (changeCustomerName ""))
      else
        Except.ok (true, store)
  | CustomerNameResult.emptyString =>
      Except.error "TypeError: undefined has no length"

/-- The externally observable events issued by the submit handler, in
program order: the pending transition, the analytics event, the processor
call, and the status transition made when the call settles. -/
inductive TraceEvent where
  | setTransactionPending
  | redirectTransactionBegin (paymentMethodId : String)
  | submitTransactionCall (name : Option String)
  | setTransactionRedirecting (url : String)
  | setTransactionError (message : String)
  deriving DecidableEq, Repr

/-- How the asynchronous processor call settles: resolve with a response
whose `redirect_url` field is absent (`none`) or a string, or reject with
an error whose message is the given string. -/
inductive ProcessorOutcome where
  | resolves (redirect_url : Option String)
  | rejects (message : String)
  deriving DecidableEq, Repr

/-- The fixed user-facing message used when the resolved response has no
usable redirect URL. -/
def genericPaymentErrorMessage : String :=
  "There was an error processing your payment. Please try again or contact support."

/-- The status transition made when the processor call settles. The source
guard is `if ( ! stripeResponse?.redirect_url )`, which is taken when the
field is absent and also when it is the empty string (both are falsy);
otherwise `setTransactionRedirecting` receives the URL. A rejection reaches
the catch handler, which passes the message of the error verbatim. -/
def completionEvent : ProcessorOutcome → TraceEvent
  | ProcessorOutcome.resolves none =>
      TraceEvent.setTransactionError genericPaymentErrorMessage
  | ProcessorOutcome.resolves (some url) =>
      if url.isEmpty then TraceEvent.setTransactionError genericPaymentErrorMessage
      else TraceEvent.setTransactionRedirecting url
  | ProcessorOutcome.rejects message => TraceEvent.setTransactionError message

/-- The `name` argument passed to `submitTransaction`:
`customerName?.value`, where customerName is the selector result. -/
def selectedName (store : StoreState) : Option String :=
  match getCustomerName store with
  | CustomerNameResult.field f => some f.value
  | CustomerNameResult.emptyString => none

/-- The onClick handler of AlipayPayButton for one submission attempt,
given how the processor call would settle: if `isFormValid` fails the
handler does nothing further (empty trace, but the validation dispatch has
updated the store); if it succeeds the handler issues the pending
transition, the REDIRECT_TRANSACTION_BEGIN analytics event and the
`submitTransaction` call in that order, and the settlement transition
follows asynchronously. -/
def onClick (store : StoreState) (outcome : ProcessorOutcome) :
    Except String (StoreState × List TraceEvent) :=
  match isFormValid store with
  | Except.error e => Except.error e
  | Except.ok (false, store2) => Except.ok (store2, [])
  | Except.ok (true, store2) =>
      Except.ok (store2,
        [ TraceEvent.setTransactionPending,
          TraceEvent.redirectTransactionBegin "alipay",
          TraceEvent.submitTransactionCall (selectedName store),
          completionEvent outcome ])

/-- The total line item: only `total.amount.displayValue` is consumed. -/
structure Amount where
  displayValue : String
  deriving DecidableEq, Repr

/-- The `total` object passed to ButtonContents. -/
structure Total where
  amount : Amount
  deriving DecidableEq, Repr

/-- The three button labels produced by ButtonContents; the pay label
carries the formatted total interpolated by `sprintf( __( 'Pay %s' ), ... )`. -/
inductive ButtonLabel where
  | processingLabel
  | payLabel (formattedTotal : String)
  | pleaseWaitLabel
  deriving DecidableEq, Repr

/-- `ButtonContents( { formStatus, total } )`: the processing label while
submitting, the pay label with the display value of the total while ready,
and the please-wait label for every other status. -/
def buttonContents (formStatus : String) (total : Total) : ButtonLabel :=
  if formStatus = "submitting" then ButtonLabel.processingLabel
  else if formStatus = "ready" then ButtonLabel.payLabel total.amount.displayValue
  else ButtonLabel.pleaseWaitLabel

/-- Fold a sequence of dispatched actions through the reducer. -/
def applyActions (s : StoreState) (actions : List Action) : StoreState :=
  actions.foldl reducer s

/-- Whether the state has a customerName field with isTouched set. -/
def isTouchedOf (s : StoreState) : Bool :=
  match s.customerName with
  | some f => f.isTouched
  | none => false

/-- Helper: the reducer never clears a touched flag: if the state has a
touched customerName field, so does the state after any action. -/
theorem isTouchedOf_reducer (s : StoreState) (a : Action)
    (h : isTouchedOf s = true) : isTouchedOf (reducer s a) = true := by
  unfold reducer
  split
  · rfl
  · exact h

/-- Helper: applying any sequence of actions preserves a touched flag. -/
theorem isTouchedOf_applyActions (l : List Action) (s : StoreState)
    (h : isTouchedOf s = true) : isTouchedOf (applyActions s l) = true := by
  induction l generalizing s with
  | nil => exact h
  | cons a l ih => exact ih (reducer s a) (isTouchedOf_reducer s a h)

/-- C4: round-trip — after dispatching the set-customer-name action with
payload x from any prior state, the selector returns a field whose value is
x and whose isTouched is true. -/
theorem round_trip_setCustomerName (s : StoreState) (x : String) :
    getCustomerName (reducer s (changeCustomerName x)) =
      CustomerNameResult.field { value := x, isTouched := true } := by
  simp [getCustomerName, reducer, changeCustomerName]

/-- C5: monotonicity — starting from the initial store state, once a
sequence of actions has made isTouched true, no further sequence of
actions ever yields a state with isTouched false. -/
theorem isTouched_monotone (pre post : List Action)
    (h : isTouchedOf (applyActions initialState pre) = true) :
    isTouchedOf (applyActions initialState (pre ++ post)) = true := by
  have hsplit : applyActions initialState (pre ++ post) =
      applyActions (applyActions initialState pre) post := by
    simp [applyActions, List.foldl_append]
  rw [hsplit]
  exact isTouchedOf_applyActions post (applyActions initialState pre) h

/-- Witness for C5 at a concrete pair of sequences: dispatching the setter
touches the field, and a later unrelated action leaves it touched. -/
theorem isTouched_monotone_witness :
    isTouchedOf (applyActions initialState [changeCustomerName "a"]) = true ∧
    isTouchedOf (applyActions initialState
      ([changeCustomerName "a"] ++ [{ type := "OTHER", payload := "b" }])) = true :=
  ⟨by decide, isTouched_monotone [changeCustomerName "a"]
    [{ type := "OTHER", payload := "b" }] (by decide)⟩

/-- C2 counterexample: for a whitespace-only value the trimmed length is
zero, yet isFormValid returns true with no dispatch — the source checks the
untrimmed length, so the claim that whitespace-only values are invalid
fails. -/
theorem isFormValid_whitespace_valid :
    (" ".toList.all Char.isWhitespace = true) ∧
    isFormValid { customerName := some { value := " ", isTouched := false } } =
      Except.ok (true, { customerName := some { value := " ", isTouched := false } }) := by
  constructor
  · decide
  · rfl

/-- C2 amended: for every state with a customerName field, if the untrimmed
value has length zero then isFormValid dispatches the setter with the empty
string (leaving value empty and isTouched true) and returns false;
otherwise (including whitespace-only values) it dispatches nothing and
returns true. -/
theorem isFormValid_spec (s : StoreState) (f : FormField)
    (hf : s.customerName = some f) :
    (f.value.length = 0 →
      isFormValid s =
        Except.ok (false, { customerName := some { value := "", isTouched := true } })) ∧
    (f.value.length ≠ 0 → isFormValid s = Except.ok (true, s)) := by
  constructor
  · intro h0
    simp [isFormValid, getCustomerName, hf, h0, reducer, changeCustomerName]
  · intro hne
    simp [isFormValid, getCustomerName, hf, hne]

/-- Witness for C2 at a concrete nonempty-name state. -/
theorem isFormValid_spec_witness :
    isFormValid { customerName := some { value := "Jane", isTouched := false } } =
      Except.ok (true, { customerName := some { value := "Jane", isTouched := false } }) :=
  (isFormValid_spec { customerName := some { value := "Jane", isTouched := false } }
    { value := "Jane", isTouched := false } rfl).2 (by decide)

/-- C3: pressing submit on a state whose customerName value is the empty
string leaves the store touched with the value still empty, and issues no
event at all: no pending transition, no analytics event, no
submitTransaction call — whatever the processor would have answered. -/
theorem submit_empty_name (t : Bool) (o : ProcessorOutcome) :
    onClick { customerName := some { value := "", isTouched := t } } o =
      Except.ok ({ customerName := some { value := "", isTouched := true } },
        ([] : List TraceEvent)) := by
  rfl

/-- C7: idempotence — if isFormValid returns a boolean b leaving the store
in state s2, then calling it again on s2 (no intervening external
dispatch) returns the same boolean b and leaves s2 unchanged. -/
theorem isFormValid_idempotent (s s2 : StoreState) (b : Bool)
    (h : isFormValid s = Except.ok (b, s2)) :
    isFormValid s2 = Except.ok (b, s2) := by
  match hs : s.customerName with
  | none =>
      rw [show isFormValid s = Except.error "TypeError: undefined has no length" by
        simp [isFormValid, getCustomerName, hs]] at h
      exact absurd h (by simp)
  | some f =>
      by_cases hl : f.value.length = 0
      · have h2 : isFormValid s =
            Except.ok (false, { customerName := some { value := "", isTouched := true } }) := by
          simp [isFormValid, getCustomerName, hs, hl, reducer, changeCustomerName]
        rw [h2] at h
        have hb : b = false := by
          have := h
          simp only [Except.ok.injEq, Prod.mk.injEq] at this
          exact this.1.symm
        have hs2 : s2 = { customerName := some { value := "", isTouched := true } } := by
          have := h
          simp only [Except.ok.injEq, Prod.mk.injEq] at this
          exact this.2.symm
        subst hb
        subst hs2
        rfl
      · have h2 : isFormValid s = Except.ok (true, s) := by
          simp [isFormValid, getCustomerName, hs, hl]
        rw [h2] at h
        have hb : b = true := by
          have := h
          simp only [Except.ok.injEq, Prod.mk.injEq] at this
          exact this.1.symm
        have hs2 : s2 = s := by
          have := h
          simp only [Except.ok.injEq, Prod.mk.injEq] at this
          exact this.2.symm
        subst hb
        subst hs2
        exact h2

/-- Witness for C7: starting from the untouched empty state, the first call
returns false and touches the field; the theorem applied there shows the
second call also returns false with the store unchanged. -/
theorem isFormValid_idempotent_witness :
    isFormValid { customerName := some { value := "", isTouched := true } } =
      Except.ok (false, { customerName := some { value := "", isTouched := true } }) :=
  isFormValid_idempotent { customerName := some { value := "", isTouched := false } }
    { customerName := some { value := "", isTouched := true } } false rfl

/-- C6 counterexample: on a state without a customerName field the selector
returns the empty-string fallback, which is not the default field object
claimed by the spec. -/
theorem getCustomerName_uninitialized_not_field :
    getCustomerName { customerName := none } = CustomerNameResult.emptyString ∧
    CustomerNameResult.emptyString ≠
      CustomerNameResult.field { value := "", isTouched := false } :=
  ⟨rfl, by decide⟩

/-- C6 amended: on a state without a customerName field, getCustomerName
returns the empty string (the `state.customerName || ''` fallback), not a
field object. -/
theorem getCustomerName_uninitialized :
    getCustomerName { customerName := none } = CustomerNameResult.emptyString := rfl

/-- C1 counterexample: a resolved response whose redirect_url field is
present but equal to the empty string is routed to the error path with the
generic message, and no redirecting transition appears in the trace —
contradicting the claim that any present redirect_url yields a redirecting
transition with that URL. -/
theorem submission_empty_redirect_url_errors :
    onClick { customerName := some { value := "Jane Doe", isTouched := true } }
        (ProcessorOutcome.resolves (some "")) =
      Except.ok ({ customerName := some { value := "Jane Doe", isTouched := true } },
        [ TraceEvent.setTransactionPending,
          TraceEvent.redirectTransactionBegin "alipay",
          TraceEvent.submitTransactionCall (some "Jane Doe"),
          TraceEvent.setTransactionError genericPaymentErrorMessage ]) ∧
    TraceEvent.setTransactionRedirecting "" ∉
      [ TraceEvent.setTransactionPending,
        TraceEvent.redirectTransactionBegin "alipay",
        TraceEvent.submitTransactionCall (some "Jane Doe"),
        TraceEvent.setTransactionError genericPaymentErrorMessage ] := by
  constructor
  · rfl
  · decide

/-- C1 amended: for every submission that passes validation (a customerName
field with nonempty value), a resolution whose redirect_url is absent or
empty ends in the error transition with exactly the fixed message and makes
no redirecting transition; a resolution with a nonempty redirect_url ends
in the redirecting transition with exactly that URL; and a rejection ends
in the error transition with the message of the rejection verbatim. -/
theorem submission_completion (s : StoreState) (f : FormField)
    (hf : s.customerName = some f) (hv : f.value.length ≠ 0) :
    (onClick s (ProcessorOutcome.resolves none) =
      Except.ok (s,
        [ TraceEvent.setTransactionPending,
          TraceEvent.redirectTransactionBegin "alipay",
          TraceEvent.submitTransactionCall (some f.value),
          TraceEvent.setTransactionError genericPaymentErrorMessage ])) ∧
    (onClick s (ProcessorOutcome.resolves (some "")) =
      Except.ok (s,
        [ TraceEvent.setTransactionPending,
          TraceEvent.redirectTransactionBegin "alipay",
          TraceEvent.submitTransactionCall (some f.value),
          TraceEvent.setTransactionError genericPaymentErrorMessage ])) ∧
    (∀ url : String, url ≠ "" →
      onClick s (ProcessorOutcome.resolves (some url)) =
        Except.ok (s,
          [ TraceEvent.setTransactionPending,
            TraceEvent.redirectTransactionBegin "alipay",
            TraceEvent.submitTransactionCall (some f.value),
            TraceEvent.setTransactionRedirecting url ])) ∧
    (∀ msg : String,
      onClick s (ProcessorOutcome.rejects msg) =
        Except.ok (s,
          [ TraceEvent.setTransactionPending,
            TraceEvent.redirectTransactionBegin "alipay",
            TraceEvent.submitTransactionCall (some f.value),
            TraceEvent.setTransactionError msg ])) := by
  have hvalid : isFormValid s = Except.ok (true, s) := by
    simp [isFormValid, getCustomerName, hf, hv]
  have hname : selectedName s = some f.value := by
    simp [selectedName, getCustomerName, hf]
  refine ⟨?_, ?_, ?_, ?_⟩
  · simp [onClick, hvalid, hname, completionEvent]
  · have hemp : ("" : String).isEmpty = true := rfl
    simp [onClick, hvalid, hname, completionEvent, hemp]
  · intro url hurl
    have hne : url.isEmpty = false := by
      cases hemp : url.isEmpty
      · rfl
      · exact absurd ((String.isEmpty_iff url).mp hemp) hurl
    simp [onClick, hvalid, hname, completionEvent, hne]
  · intro msg
    simp [onClick, hvalid, hname, completionEvent]

/-- Witness for C1 at a concrete state: a nonempty redirect URL yields the
redirecting transition, and a rejection yields its message verbatim. -/
theorem submission_completion_witness :
    (onClick { customerName := some { value := "Jane Doe", isTouched := true } }
        (ProcessorOutcome.resolves (some "https://pay.example/x")) =
      Except.ok ({ customerName := some { value := "Jane Doe", isTouched := true } },
        [ TraceEvent.setTransactionPending,
          TraceEvent.redirectTransactionBegin "alipay",
          TraceEvent.submitTransactionCall (some "Jane Doe"),
          TraceEvent.setTransactionRedirecting "https://pay.example/x" ])) ∧
    (onClick { customerName := some { value := "Jane Doe", isTouched := true } }
        (ProcessorOutcome.rejects "card declined") =
      Except.ok ({ customerName := some { value := "Jane Doe", isTouched := true } },
        [ TraceEvent.setTransactionPending,
          TraceEvent.redirectTransactionBegin "alipay",
          TraceEvent.submitTransactionCall (some "Jane Doe"),
          TraceEvent.setTransactionError "card declined" ])) :=
  ⟨(submission_completion { customerName := some { value := "Jane Doe", isTouched := true } }
      { value := "Jane Doe", isTouched := true } rfl (by decide)).2.2.1
      "https://pay.example/x" (by decide),
   (submission_completion { customerName := some { value := "Jane Doe", isTouched := true } }
      { value := "Jane Doe", isTouched := true } rfl (by decide)).2.2.2
      "card declined"⟩

/-- C8: ordering — whenever validation succeeds, the submit handler issues
the pending transition first, then the REDIRECT_TRANSACTION_BEGIN analytics
event, then the submitTransaction call, with the settlement transition
last: pending and analytics strictly precede the processor dispatch. -/
theorem submission_ordering (s : StoreState) (o : ProcessorOutcome) (s2 : StoreState)
    (h : isFormValid s = Except.ok (true, s2)) :
    onClick s o =
      Except.ok (s2,
        [ TraceEvent.setTransactionPending,
          TraceEvent.redirectTransactionBegin "alipay",
          TraceEvent.submitTransactionCall (selectedName s),
          completionEvent o ]) := by
  simp [onClick, h]

/-- Witness for C8 at a concrete valid state and outcome. -/
theorem submission_ordering_witness :
    onClick { customerName := some { value := "Jane Doe", isTouched := true } }
        (ProcessorOutcome.resolves (some "https://pay.example/x")) =
      Except.ok ({ customerName := some { value := "Jane Doe", isTouched := true } },
        [ TraceEvent.setTransactionPending,
          TraceEvent.redirectTransactionBegin "alipay",
          TraceEvent.submitTransactionCall
            (selectedName { customerName := some { value := "Jane Doe", isTouched := true } }),
          completionEvent (ProcessorOutcome.resolves (some "https://pay.example/x")) ]) :=
  submission_ordering { customerName := some { value := "Jane Doe", isTouched := true } }
    (ProcessorOutcome.resolves (some "https://pay.example/x"))
    { customerName := some { value := "Jane Doe", isTouched := true } } rfl

/-- C9: the button content is a three-way selection on the form status —
the processing label while submitting, the pay label carrying the formatted
total while ready, and the please-wait label for every other status. -/
theorem buttonContents_three_way (formStatus : String) (total : Total) :
    (formStatus = "submitting" →
      buttonContents formStatus total = ButtonLabel.processingLabel) ∧
    (formStatus = "ready" →
      buttonContents formStatus total = ButtonLabel.payLabel total.amount.displayValue) ∧
    (formStatus ≠ "submitting" → formStatus ≠ "ready" →
      buttonContents formStatus total = ButtonLabel.pleaseWaitLabel) := by
  refine ⟨?_, ?_, ?_⟩
  · intro h
    simp [buttonContents, h]
  · intro h
    simp [buttonContents, h]
  · intro h1 h2
    simp [buttonContents, h1, h2]

/-- Witness for C9: a status that is neither submitting nor ready (here the
error status) gets the please-wait label. -/
theorem buttonContents_three_way_witness :
    buttonContents "error" { amount := { displayValue := "$60" } } =
      ButtonLabel.pleaseWaitLabel :=
  (buttonContents_three_way "error" { amount := { displayValue := "$60" } }).2.2
    (by decide) (by decide)

/-- C10: frame property — the reducer returns the state unchanged on every
action whose type is not CUSTOMER_NAME_SET. -/
theorem reducer_frame (s : StoreState) (a : Action)
    (h : a.type ≠ "CUSTOMER_NAME_SET") : reducer s a = s := by
  simp [reducer, h]

/-- Witness for C10 at a concrete state and action. -/
theorem reducer_frame_witness :
    reducer initialState { type := "SOMETHING_ELSE", payload := "x" } = initialState :=
  reducer_frame initialState { type := "SOMETHING_ELSE", payload := "x" } (by decide)

end Alipay
